import Mathlib

/-!
Verification development for the BarrierLite remote-session screen.

The definitions below are a shallow embedding of the non-presentational
logic of `src/app/(tabs)/iot.tsx` (resource admission, session start flow,
signaling setup, peer-connection event handlers, relay fallback, health
sampling, session teardown) and of the mock key-encapsulation primitive in
`src/app/src/crypto/kyber.ts`. Numeric telemetry fractions are modelled as
rationals, JavaScript strings as Lean strings (Unicode scalar sequences),
and the byte payloads of the crypto primitive as lists of naturals.
-/

/-- Model of the JavaScript `String.prototype.trim` used by
`handleStartSession` on the device id: drop leading and trailing
whitespace characters. -/
def jsTrim (s : String) : String :=
  ⟨((s.data.dropWhile Char.isWhitespace).reverse.dropWhile Char.isWhitespace).reverse⟩

/-- Diagnostics telemetry as consumed in `iot.tsx`: `diagnostics.ram` is a
0-1 fraction and `cpu` is the value of `parseFloat(diagnostics.cpu)/100`
computed at line 2164. The whole diagnostics object may be null, which the
source reads back as 0 via `diagnostics?.ram || 0` and the ternary at 2164. -/
structure Diag where
  ram : ℚ
  cpu : ℚ
deriving DecidableEq

/-- Value of `diagnostics?.ram || 0` (line 2171). -/
def ramFraction (diag : Option Diag) : ℚ :=
  match diag with
  | some d => d.ram
  | none => 0

/-- Value of `cpuUsage` (line 2164): parsed cpu fraction, 0 when
diagnostics is null. -/
def cpuUsage (diag : Option Diag) : ℚ :=
  match diag with
  | some d => d.cpu
  | none => 0

/-- Device-level inputs read inside `checkResources`:
`DeviceInfo.getTotalRamMb()`, `DeviceInfo.getBatteryLevelAsync()` and the
platform test `Platform.OS === "android"`. -/
structure DeviceEnv where
  totalRamMb : ℚ
  batteryLevel : ℚ
  isAndroid : Bool
deriving DecidableEq

/-- Embedding of `checkResources` (iot.tsx lines 2168-2182). Returns true
when the device is over limit. Note that when `totalRamMb > 6000` the
reported ram fraction is replaced by the constant 0.3 (the "Mock for 6GB"
at line 2171), and that `thermalWarning` is NOT consulted here. -/
def checkResources (env : DeviceEnv) (diag : Option Diag) : Bool :=
  let ramUsage : ℚ := if 6000 < env.totalRamMb then 3/10 else ramFraction diag
  decide ((8 : ℚ)/10 < ramUsage) ||
    decide ((7 : ℚ)/10 < cpuUsage diag) ||
    (decide (env.batteryLevel < (2 : ℚ)/10) && env.isAndroid)

/-- Inputs of one press of the start button, covering every component-level
value read by `handleStartSession` and `startWebRTC`: platform, current
connection flag, the typed device id, device telemetry, the thermal flag
from the diagnostics context, whether the dynamic WebRTC module load
completed (`webrtcLoaded` plus non-null `RTCPeerConnection`/`mediaDevices`,
merged into `rtcAvailable`), the crypto-context readiness flag, and whether
the two awaited WebRTC steps (`getUserMedia`, `createOffer` with
`setLocalDescription`) succeed. -/
structure StartInputs where
  isWebPlatform : Bool
  isConnected : Bool
  deviceId : String
  env : DeviceEnv
  diag : Option Diag
  thermalWarning : Bool
  webrtcLoaded : Bool
  rtcAvailable : Bool
  encryptionReady : Bool
  mediaOk : Bool
  offerOk : Bool
deriving DecidableEq

/-- Outcome of `startWebRTC` (iot.tsx lines 2357-2515): each constructor is
one of the early-return points of the function, in source order, with
`started` meaning the offer was emitted and the latency/duration timers
were installed. -/
inductive WebRTCResult where
  | notLoaded
  | encryptionNotReady
  | resourceLimit
  | mediaFailed
  | offerFailed
  | started
deriving DecidableEq

/-- Embedding of `startWebRTC` (iot.tsx lines 2357-2515), keeping the exact
order of its guards: platform/module guard, `encryptionReady` guard,
second `checkResources` call, media acquisition, offer creation. -/
def startWebRTC (i : StartInputs) : WebRTCResult :=
  if i.isWebPlatform || !i.webrtcLoaded || !i.rtcAvailable then .notLoaded
  else if !i.encryptionReady then .encryptionNotReady
  else if checkResources i.env i.diag then .resourceLimit
  else if !i.mediaOk then .mediaFailed
  else if !i.offerOk then .offerFailed
  else .started

/-- Outcome of `handleStartSession` (iot.tsx lines 2517-2550): each
constructor is one of its early returns, and `proceeded w` records that
`startWebRTC` was invoked and returned `w`. -/
inductive StartOutcome where
  | platformBlocked
  | endedExisting
  | missingDeviceId
  | rejectedResourceLimit
  | proceeded (w : WebRTCResult)
deriving DecidableEq

/-- Embedding of `handleStartSession` (iot.tsx lines 2517-2550): web
platform guard, toggle-end when already connected, `!deviceId.trim()`
guard, then the admission gate `overLimit || thermalWarning`, then
`startWebRTC`. -/
def handleStartSession (i : StartInputs) : StartOutcome :=
  if i.isWebPlatform then .platformBlocked
  else if i.isConnected then .endedExisting
  else if jsTrim i.deviceId = "" then .missingDeviceId
  else if checkResources i.env i.diag || i.thermalWarning then .rejectedResourceLimit
  else .proceeded (startWebRTC i)

/-- Whether `startWebRTC` constructed the peer connection (the
`new RTCPeerConnection` at line 2385 runs only after the first three
guards). -/
def pcCreated : WebRTCResult → Bool
  | .notLoaded => false
  | .encryptionNotReady => false
  | .resourceLimit => false
  | _ => true

/-- Whether `startWebRTC` reached the signaling exchange, i.e. emitted the
offer at line 2489. -/
def offerEmitted : WebRTCResult → Bool
  | .started => true
  | _ => false

/-- Value of the `isConnected` flag after `handleStartSession` returns:
the source runs `setIsConnected(true)` (line 2545) unconditionally after
`await startWebRTC()`, whatever the latter did; the toggle branch runs
`handleEndSession` which sets it false; the early returns leave it as it
was. -/
def isConnectedAfterStart (i : StartInputs) : Bool :=
  match handleStartSession i with
  | .proceeded _ => true
  | .endedExisting => false
  | _ => i.isConnected

/-- Whether `handleStartSession` recorded a session-history entry
(`logSession(deviceId)` at line 2546, also unconditional once the guards
pass). -/
def sessionLoggedAfterStart (i : StartInputs) : Bool :=
  match handleStartSession i with
  | .proceeded _ => true
  | _ => false

/-- Observable calls made while handling one start press, used to state
which collaborators a start request reaches. `encryptionInitCall` would be
a call of `initializeEncryption`; the body of `handleStartSession` contains
none (that function is only invoked from the mount effect at line 2230). -/
inductive StartAction where
  | resourceCheck
  | encryptionInitCall
  | webrtcStart
  | sessionLogged
  | endSessionCall
deriving DecidableEq

/-- Trace of collaborator calls of `handleStartSession` (iot.tsx lines
2517-2550) for one start press. -/
def startActions (i : StartInputs) : List StartAction :=
  if i.isWebPlatform then []
  else if i.isConnected then [.endSessionCall]
  else if jsTrim i.deviceId = "" then []
  else if checkResources i.env i.diag || i.thermalWarning then [.resourceCheck]
  else [.resourceCheck, .webrtcStart, .sessionLogged]

/-- Option object passed to `io(SIGNALING_URL, ...)` at iot.tsx lines
2282-2287. -/
structure SocketConfig where
  reconnection : Bool
  reconnectionAttempts : Nat
  reconnectionDelay : Nat
deriving DecidableEq

/-- Default of `Constants.expoConfig?.extra?.SERVER_PORT || 8080`
(iot.tsx line 2039). -/
def SERVER_PORT : Nat := 8080

/-- Signaling endpoint constant (iot.tsx line 2041). -/
def SIGNALING_URL : String := "ws://localhost:" ++ toString SERVER_PORT

/-- Embedding of `setupSignaling` (iot.tsx lines 2279-2287) restricted to
its effect on `socketRef.current`. The source guard is
`if (isWebPlatform || !socketRef.current || !SIGNALING_URL) return;`
so the function returns unchanged whenever the ref holds no socket yet
(`!socketRef.current` is true exactly when the ref is null), and only
otherwise replaces the ref with a freshly configured socket. -/
def setupSignaling (isWebPlatform : Bool) (socket : Option SocketConfig) :
    Option SocketConfig :=
  if isWebPlatform || socket.isNone || decide (SIGNALING_URL = "") then socket
  else some { reconnection := true, reconnectionAttempts := 5, reconnectionDelay := 1000 }

/-- Error outcomes of applying a remote ICE candidate to the peer
connection. -/
inductive RTCError where
  | invalidState
  | candidateBeforeDescription
deriving DecidableEq

/-- Modelled from the spec: the `RTCPeerConnection` object of the external
WebRTC module (`react-native-webrtc`), which is not part of this
repository. Per spec section 3, `PeerConnectionHandle` carries the remote
description, the list of accumulated ICE candidates ordered by arrival
with duplicates ignored, and a closed flag. -/
structure PeerConn where
  closed : Bool
  remoteDescSet : Bool
  candidates : List String
deriving DecidableEq

/-- Data-channel handle owned by the session (`dataChannelRef`). -/
structure DataChan where
  closedFlag : Bool
deriving DecidableEq

/-- Component-level state of the remote-session screen touched by the
session handlers: the `pcRef`, `dataChannelRef`, `localStream`,
`remoteStream`, `isConnected`, duration/latency counters, the two interval
timers, and the error banner. -/
structure SessionState where
  pc : Option PeerConn
  dataChannel : Option DataChan
  localStream : Option Nat
  remoteStream : Bool
  isConnected : Bool
  timerOn : Bool
  latencyTimerOn : Bool
  duration : Nat
  latency : ℤ
  errorMessage : String
deriving DecidableEq

/-- Modelled from the spec: `RTCPeerConnection.addIceCandidate` of the
external WebRTC module. Applying a candidate on a closed connection is an
invalid-state error; a candidate arriving before any remote description is
set is the `CandidateBeforeDescription` error condition of spec section
4.4 and is dropped, not queued; otherwise the candidate is appended in
arrival order with duplicates ignored (spec section 3). -/
def addIceCandidate (p : PeerConn) (c : String) : Except RTCError PeerConn :=
  if p.closed then .error .invalidState
  else if !p.remoteDescSet then .error .candidateBeforeDescription
  else .ok { p with candidates := if c ∈ p.candidates then p.candidates else p.candidates ++ [c] }

/-- Embedding of the `ice-candidate` socket handler (iot.tsx lines
2319-2328): return unchanged when the peer connection ref is null, the
message is addressed to another device id, or the WebRTC module is
unavailable; otherwise try `addIceCandidate`, and on error only set the
error banner (the catch block at 2324-2327). -/
def onIceCandidateEvent (activeDeviceId : String) (s : SessionState)
    (evDeviceId c : String) (rtcAvailable : Bool) : SessionState :=
  match s.pc with
  | none => s
  | some p =>
    if evDeviceId ≠ activeDeviceId || !rtcAvailable then s
    else
      match addIceCandidate p c with
      | .ok p2 => { s with pc := some p2 }
      | .error _ => { s with errorMessage := "Failed to add ICE candidate" }

/-- Embedding of `handleEndSession` (iot.tsx lines 2552-2569): close the
peer connection and the data channel (the refs themselves are not
nulled), stop and release the local stream, clear the remote stream, set
`isConnected` false, clear both interval timers, reset duration and
latency to 0, and clear the error banner. -/
def handleEndSession (s : SessionState) : SessionState :=
  { pc := s.pc.map (fun p => { p with closed := true }),
    dataChannel := s.dataChannel.map (fun d => { d with closedFlag := true }),
    localStream := none,
    remoteStream := false,
    isConnected := false,
    timerOn := false,
    latencyTimerOn := false,
    duration := 0,
    latency := 0,
    errorMessage := "" }

/-- Projection of `SessionState` onto the fields that realise the
Session data model of spec section 3 (lifecycle flag, counters, timers,
peer connection and streams), leaving out the error banner text. -/
def sessionCore (s : SessionState) :
    Option PeerConn × Option DataChan × Option Nat × Bool × Bool × Bool × Bool × Nat × ℤ :=
  (s.pc, s.dataChannel, s.localStream, s.remoteStream, s.isConnected,
    s.timerOn, s.latencyTimerOn, s.duration, s.latency)

/-- Events seen by the relay-fallback code: delivery of an `ice_failed`
socket message (which runs the handler at iot.tsx lines 2331-2345), and
resolution or rejection of the awaited `axios.post` to the
`/rustdesk/generate` endpoint. -/
inductive RelayEvent where
  | iceFailed (room : String)
  | responseOk (rustdeskId pass : String)
  | responseErr
deriving DecidableEq

/-- Whether a relay event is an inbound `ice_failed` delivery. -/
def isIceFailedEv : RelayEvent → Bool
  | .iceFailed _ => true
  | _ => false

/-- State accumulated by the relay fallback: the session view, the number
of `axios.post` relay requests issued so far, and the number of
`use_rustdesk` directives emitted back through the socket. -/
structure FallbackState where
  session : SessionState
  posts : Nat
  directives : Nat
deriving DecidableEq

/-- Embedding of the `ice_failed` handler (iot.tsx lines 2331-2345) as a
step function over relay events. An inbound `ice_failed` unconditionally
issues one `axios.post` relay request: the handler consults no flag that
would record an in-flight request, so nothing in the state guards the
post. A resolved response emits the `use_rustdesk` directive (line 2337)
and changes nothing else in the session; a rejected response only sets the
error banner (line 2343), leaving the session as it was. -/
def fallbackStep (st : FallbackState) (e : RelayEvent) : FallbackState :=
  match e with
  | .iceFailed _ => { st with posts := st.posts + 1 }
  | .responseOk _ _ => { st with directives := st.directives + 1 }
  | .responseErr =>
    { st with session := { st.session with errorMessage := "Fallback unavailable; retry P2P" } }

/-- Session state before any event, used as the initial state of a relay
run. -/
def freshSession : SessionState :=
  { pc := none, dataChannel := none, localStream := none, remoteStream := false,
    isConnected := false, timerOn := false, latencyTimerOn := false,
    duration := 0, latency := 0, errorMessage := "" }

/-- Run the relay fallback over a sequence of events from a given start
state. -/
def relayRunFrom (st : FallbackState) (es : List RelayEvent) : FallbackState :=
  es.foldl fallbackStep st

/-- Run the relay fallback over a sequence of events from the initial
state. -/
def relayRun (es : List RelayEvent) : FallbackState :=
  relayRunFrom { session := freshSession, posts := 0, directives := 0 } es

/-- Number of `ice_failed` emissions performed by `pc.onconnectionstatechange`
(iot.tsx lines 2465-2477) for one callback invocation: it emits exactly
when the connection state is `failed` and the last successful ping is more
than 2000 ms old. -/
def onConnStateChangeEmit (connState : String) (now lastPing : ℤ) : Nat :=
  if connState = "failed" ∧ 2000 < now - lastPing then 1 else 0

/-- Number of `ice_failed` emissions performed by
`pc.oniceconnectionstatechange` (iot.tsx lines 2479-2484) for one callback
invocation: it emits whenever the ICE connection state is `failed`, with
no ping-age guard. -/
def onIceConnStateChangeEmit (iceState : String) : Nat :=
  if iceState = "failed" then 1 else 0

/-- One entry of the `pc.getStats()` result as read by the latency
interval (iot.tsx lines 2499-2512): the report type string, its state
string, and `currentRoundTripTime` in seconds, absent when the underlying
report carries none (the `|| 0` in the source turns that into 0). -/
structure StatsReport where
  kind : String
  state : String
  currentRoundTripTime : Option ℚ
deriving DecidableEq

/-- JavaScript `Math.round`: round half toward positive infinity. -/
def jsRound (q : ℚ) : ℤ := ⌊q + 1/2⌋

/-- Whether a stats report is a succeeded candidate pair (the filter at
iot.tsx line 2503). -/
def isSucceededPair (r : StatsReport) : Bool :=
  decide (r.kind = "candidate-pair") && decide (r.state = "succeeded")

/-- Effect of one stats report inside the `stats.forEach` of the latency
interval: every succeeded candidate pair overwrites the latency with its
round-trip time converted to whole milliseconds; other reports leave it
unchanged (iot.tsx lines 2502-2508). -/
def latencyReportStep (lat : ℤ) (r : StatsReport) : ℤ :=
  if isSucceededPair r then jsRound (r.currentRoundTripTime.getD 0 * 1000) else lat

/-- Embedding of one tick of the latency interval (iot.tsx lines
2499-2512): `none` models `getStats()` throwing, in which case the catch
block keeps the latency unchanged and the session keeps running; otherwise
the reports are folded in iteration order. -/
def latencySampleTick (lat : ℤ) (statsResult : Option (List StatsReport)) : ℤ :=
  match statsResult with
  | none => lat
  | some reports => reports.foldl latencyReportStep lat

/-- Latency value prescribed by the spec sentence for one tick, stated
from its words: read the round-trip time of the FIRST succeeded candidate
pair of the stats, in whole milliseconds; keep the previous value when
there is none. Compared against `latencySampleTick` for claim C9. -/
def specFirstPairLatency (lat : ℤ) (reports : List StatsReport) : ℤ :=
  match reports.find? isSucceededPair with
  | some r => jsRound (r.currentRoundTripTime.getD 0 * 1000)
  | none => lat

/-- Last succeeded candidate pair of a stats list, if any. -/
def lastSucceededPair (reports : List StatsReport) : Option StatsReport :=
  reports.reverse.find? isSucceededPair

/-- UTF-8 encoding of one Unicode scalar value, as performed by the
platform `TextEncoder` used in `kyber.ts` line 8: one to four bytes
depending on the code point. -/
def utf8EncodeChar (c : Char) : List Nat :=
  let n := c.toNat
  if n < 128 then [n]
  else if n < 2048 then [192 + n / 64, 128 + n % 64]
  else if n < 65536 then [224 + n / 4096, 128 + n / 64 % 64, 128 + n % 64]
  else [240 + n / 262144, 128 + n / 4096 % 64, 128 + n / 64 % 64, 128 + n % 64]

/-- UTF-8 encoding of a string (list of Unicode scalar values), the model
of `new TextEncoder().encode(data)`. -/
def utf8Encode : List Char → List Nat
  | [] => []
  | c :: cs => utf8EncodeChar c ++ utf8Encode cs

/-- Whether a byte is a UTF-8 continuation byte (10xxxxxx). -/
def isCont (b : Nat) : Bool := decide (128 ≤ b) && decide (b < 192)

/-- Code point carried by a two-byte UTF-8 sequence. -/
def val2 (b1 b2 : Nat) : Nat := (b1 - 192) * 64 + (b2 - 128)

/-- Code point carried by a three-byte UTF-8 sequence. -/
def val3 (b1 b2 b3 : Nat) : Nat := (b1 - 224) * 4096 + (b2 - 128) * 64 + (b3 - 128)

/-- Code point carried by a four-byte UTF-8 sequence. -/
def val4 (b1 b2 b3 b4 : Nat) : Nat :=
  (b1 - 240) * 262144 + (b2 - 128) * 4096 + (b3 - 128) * 64 + (b4 - 128)

/-- Validity of a two-byte UTF-8 sequence: lead byte at least 0xC2 (which
rules out overlong forms) and one continuation byte. -/
def guard2 (b1 b2 : Nat) : Bool := decide (194 ≤ b1) && isCont b2

/-- Validity of a three-byte UTF-8 sequence: two continuation bytes, no
overlong form, no surrogate code point. -/
def guard3 (b1 b2 b3 : Nat) : Bool :=
  isCont b2 && isCont b3 && decide (2048 ≤ val3 b1 b2 b3) &&
    !(decide (55296 ≤ val3 b1 b2 b3) && decide (val3 b1 b2 b3 < 57344))

/-- Validity of a four-byte UTF-8 sequence: lead byte below 0xF8, three
continuation bytes, no overlong form, code point within the Unicode
range. -/
def guard4 (b1 b2 b3 b4 : Nat) : Bool :=
  decide (b1 < 248) && isCont b2 && isCont b3 && isCont b4 &&
    decide (65536 ≤ val4 b1 b2 b3 b4) && decide (val4 b1 b2 b3 b4 < 1114112)

mutual

/-- UTF-8 decoding of a byte list, the model of
`new TextDecoder().decode(ciphertext)` in `kyber.ts` line 10, returning
`none` on malformed input. The continuation bytes of a multi-byte
sequence are consumed by the `utf8Tail` helpers below. -/
def utf8Decode : List Nat → Option (List Char)
  | [] => some []
  | b1 :: rest =>
    if b1 < 128 then (utf8Decode rest).map (fun cs => Char.ofNat b1 :: cs)
    else if b1 < 224 then utf8Tail2 b1 rest
    else if b1 < 240 then utf8Tail3a b1 rest
    else utf8Tail4a b1 rest

/-- Continuation byte of a two-byte sequence. -/
def utf8Tail2 (b1 : Nat) : List Nat → Option (List Char)
  | [] => none
  | b2 :: rest =>
    if guard2 b1 b2 then (utf8Decode rest).map (fun cs => Char.ofNat (val2 b1 b2) :: cs)
    else none

/-- First continuation byte of a three-byte sequence. -/
def utf8Tail3a (b1 : Nat) : List Nat → Option (List Char)
  | [] => none
  | b2 :: rest => utf8Tail3b b1 b2 rest

/-- Second continuation byte of a three-byte sequence. -/
def utf8Tail3b (b1 b2 : Nat) : List Nat → Option (List Char)
  | [] => none
  | b3 :: rest =>
    if guard3 b1 b2 b3 then (utf8Decode rest).map (fun cs => Char.ofNat (val3 b1 b2 b3) :: cs)
    else none

/-- First continuation byte of a four-byte sequence. -/
def utf8Tail4a (b1 : Nat) : List Nat → Option (List Char)
  | [] => none
  | b2 :: rest => utf8Tail4b b1 b2 rest

/-- Second continuation byte of a four-byte sequence. -/
def utf8Tail4b (b1 b2 : Nat) : List Nat → Option (List Char)
  | [] => none
  | b3 :: rest => utf8Tail4c b1 b2 b3 rest

/-- Third continuation byte of a four-byte sequence. -/
def utf8Tail4c (b1 b2 b3 : Nat) : List Nat → Option (List Char)
  | [] => none
  | b4 :: rest =>
    if guard4 b1 b2 b3 b4 then (utf8Decode rest).map (fun cs => Char.ofNat (val4 b1 b2 b3 b4) :: cs)
    else none

end

/-- Key pair produced by the mock key generator of `kyber.ts`. -/
structure KeyPair where
  publicKey : List Nat
  secretKey : List Nat
deriving DecidableEq

/-- Result object of `ml_kem5.encap`. -/
structure Encapsulated where
  ciphertext : List Nat
deriving DecidableEq

/-- Interface of the crypto primitive exported by `kyber.ts`. -/
structure MlKem where
  keygen : List Nat → KeyPair
  encap : List Nat → List Char → Encapsulated
  decap : List Nat → List Nat → Option (List Char)

/-- Embedding of the `ml_kem5` object of `src/app/src/crypto/kyber.ts`
lines 2-11: `keygen` ignores the seed and returns the fixed mock 32-byte
key pair (public key all 1, secret key all 2); `encap` UTF-8 encodes the
payload as the ciphertext; `decap` UTF-8 decodes the ciphertext, ignoring
the secret key. -/
def ml_kem5 : MlKem :=
  { keygen := fun _ =>
      { publicKey := List.replicate 32 1, secretKey := List.replicate 32 2 },
    encap := fun _ data => { ciphertext := utf8Encode data },
    decap := fun _ ciphertext => utf8Decode ciphertext }

/-- Start press on a device with more than 6000 MB of ram while the
telemetry reports a ram fraction of 0.9: because of the 6GB mock inside
`checkResources`, the reported ram pressure is ignored. Used for claim
C1. -/
def bigRamInput : StartInputs :=
  { isWebPlatform := false, isConnected := false, deviceId := "dev-42",
    env := { totalRamMb := 8000, batteryLevel := 1, isAndroid := true },
    diag := some { ram := 9/10, cpu := 1/10 }, thermalWarning := false,
    webrtcLoaded := true, rtcAvailable := true, encryptionReady := true,
    mediaOk := true, offerOk := true }

/-- Start press on a small-ram device whose telemetry reports a ram
fraction of 0.9, used as the concrete instance for the amended claim
C1. -/
def smallRamInput : StartInputs :=
  { isWebPlatform := false, isConnected := false, deviceId := "dev-42",
    env := { totalRamMb := 4000, batteryLevel := 1, isAndroid := true },
    diag := some { ram := 9/10, cpu := 1/10 }, thermalWarning := false,
    webrtcLoaded := true, rtcAvailable := true, encryptionReady := true,
    mediaOk := true, offerOk := true }

/-- Start press with healthy resources but with the crypto context not
yet ready, used for claim C2. -/
def earlyStartInput : StartInputs :=
  { isWebPlatform := false, isConnected := false, deviceId := "dev-42",
    env := { totalRamMb := 4000, batteryLevel := 1, isAndroid := true },
    diag := some { ram := 1/10, cpu := 2/10 }, thermalWarning := false,
    webrtcLoaded := true, rtcAvailable := true, encryptionReady := false,
    mediaOk := true, offerOk := true }

/-- Start press with a whitespace-only device id, used for claim C3. -/
def blankIdInput : StartInputs :=
  { isWebPlatform := false, isConnected := false, deviceId := "   ",
    env := { totalRamMb := 4000, batteryLevel := 1, isAndroid := true },
    diag := some { ram := 1/10, cpu := 2/10 }, thermalWarning := false,
    webrtcLoaded := true, rtcAvailable := true, encryptionReady := true,
    mediaOk := true, offerOk := true }

/-- A connected session in relay-fallback position: peer connection
present, timers running, used for claims C5 and C7/C8 instances. -/
def connectedSession : SessionState :=
  { pc := some { closed := false, remoteDescSet := true, candidates := ["cand0"] },
    dataChannel := some { closedFlag := false },
    localStream := some 2, remoteStream := true, isConnected := true,
    timerOn := true, latencyTimerOn := true, duration := 42, latency := 30,
    errorMessage := "" }

/-- A session still negotiating: the peer connection exists but no remote
description has been applied yet, used for claim C7. -/
def negotiatingSession : SessionState :=
  { pc := some { closed := false, remoteDescSet := false, candidates := [] },
    dataChannel := none,
    localStream := some 2, remoteStream := false, isConnected := true,
    timerOn := true, latencyTimerOn := true, duration := 5, latency := 0,
    errorMessage := "" }

/-- Stats list holding two succeeded candidate pairs, with round-trip
times 0.085 s and 0.2 s, used for claim C9. -/
def twoPairStats : List StatsReport :=
  [ { kind := "candidate-pair", state := "succeeded", currentRoundTripTime := some (17/200) },
    { kind := "candidate-pair", state := "succeeded", currentRoundTripTime := some (1/5) } ]

/-- Stats list holding one succeeded candidate pair reporting a round-trip
time of 0.085 s, used for claim C9. -/
def singlePairStats : List StatsReport :=
  [ { kind := "candidate-pair", state := "succeeded", currentRoundTripTime := some (17/200) } ]

/-! Helper lemmas shared by the claim theorems. -/

theorem char_toNat_valid (c : Char) :
    c.toNat < 55296 ∨ (57344 ≤ c.toNat ∧ c.toNat < 1114112) := by
  have h : c.toNat < 55296 ∨ 57343 < c.toNat ∧ c.toNat < 1114112 := c.valid
  omega

theorem utf8Decode_encodeChar (c : Char) (l : List Nat) :
    utf8Decode (utf8EncodeChar c ++ l) = (utf8Decode l).map (fun cs => c :: cs) := by
  have hval := char_toNat_valid c
  have hof : Char.ofNat c.toNat = c := Char.ofNat_toNat c
  by_cases h1 : c.toNat < 128
  · have he : utf8EncodeChar c = [c.toNat] := by simp [utf8EncodeChar, h1]
    rw [he]
    simp only [List.cons_append, List.nil_append]
    simp only [utf8Decode]
    rw [if_pos h1, hof]
  · by_cases h2 : c.toNat < 2048
    · have he : utf8EncodeChar c = [192 + c.toNat / 64, 128 + c.toNat % 64] := by
        simp [utf8EncodeChar, h1, h2]
      rw [he]
      simp only [List.cons_append, List.nil_append]
      simp only [utf8Decode]
      rw [if_neg (by omega), if_pos (by omega)]
      simp only [utf8Tail2]
      rw [if_pos (by simp only [guard2, isCont, Bool.and_eq_true, decide_eq_true_eq]; omega)]
      have hv : val2 (192 + c.toNat / 64) (128 + c.toNat % 64) = c.toNat := by
        simp only [val2]; omega
      rw [hv, hof]
    · by_cases h3 : c.toNat < 65536
      · have he : utf8EncodeChar c =
            [224 + c.toNat / 4096, 128 + c.toNat / 64 % 64, 128 + c.toNat % 64] := by
          simp [utf8EncodeChar, h1, h2, h3]
        rw [he]
        simp only [List.cons_append, List.nil_append]
        simp only [utf8Decode]
        rw [if_neg (by omega), if_neg (by omega), if_pos (by omega)]
        simp only [utf8Tail3a]
        simp only [utf8Tail3b]
        have hv : val3 (224 + c.toNat / 4096) (128 + c.toNat / 64 % 64) (128 + c.toNat % 64)
            = c.toNat := by
          simp only [val3]; omega
        rw [if_pos (by
          simp only [guard3, isCont, hv, Bool.and_eq_true, Bool.not_eq_true',
            Bool.and_eq_false_iff, decide_eq_true_eq, decide_eq_false_iff_not]
          omega)]
        rw [hv, hof]
      · have he : utf8EncodeChar c =
            [240 + c.toNat / 262144, 128 + c.toNat / 4096 % 64,
              128 + c.toNat / 64 % 64, 128 + c.toNat % 64] := by
          simp [utf8EncodeChar, h1, h2, h3]
        rw [he]
        simp only [List.cons_append, List.nil_append]
        simp only [utf8Decode]
        rw [if_neg (by omega), if_neg (by omega), if_neg (by omega)]
        simp only [utf8Tail4a]
        simp only [utf8Tail4b]
        simp only [utf8Tail4c]
        have hv : val4 (240 + c.toNat / 262144) (128 + c.toNat / 4096 % 64)
            (128 + c.toNat / 64 % 64) (128 + c.toNat % 64) = c.toNat := by
          simp only [val4]; omega
        rw [if_pos (by
          simp only [guard4, isCont, hv, Bool.and_eq_true, decide_eq_true_eq]
          omega)]
        rw [hv, hof]

theorem utf8Decode_encode (cs : List Char) : utf8Decode (utf8Encode cs) = some cs := by
  induction cs with
  | nil => rfl
  | cons c cs ih =>
    rw [utf8Encode, utf8Decode_encodeChar, ih]
    rfl

theorem jsRound_eq (q : ℚ) (n : ℤ) (h1 : (n : ℚ) ≤ q + 1/2) (h2 : q + 1/2 < n + 1) :
    jsRound q = n := by
  unfold jsRound
  exact Int.floor_eq_iff.mpr ⟨h1, h2⟩

theorem relayRunFrom_posts (es : List RelayEvent) :
    ∀ st : FallbackState,
      (relayRunFrom st es).posts = st.posts + (es.filter isIceFailedEv).length := by
  induction es with
  | nil => intro st; simp [relayRunFrom]
  | cons e es ih =>
    intro st
    show (relayRunFrom (fallbackStep st e) es).posts = _
    rw [ih]
    cases e with
    | iceFailed r => simp [fallbackStep, isIceFailedEv, List.filter_cons]; omega
    | responseOk a b => simp [fallbackStep, isIceFailedEv, List.filter_cons]
    | responseErr => simp [fallbackStep, isIceFailedEv, List.filter_cons]

theorem foldl_latencyReportStep (reports : List StatsReport) :
    ∀ lat : ℤ, reports.foldl latencyReportStep lat =
      (match lastSucceededPair reports with
        | some r => jsRound (r.currentRoundTripTime.getD 0 * 1000)
        | none => lat) := by
  induction reports with
  | nil => intro lat; rfl
  | cons r rs ih =>
    intro lat
    show rs.foldl latencyReportStep (latencyReportStep lat r) = _
    rw [ih]
    unfold lastSucceededPair
    rw [List.reverse_cons, List.find?_append]
    cases hf : List.find? isSucceededPair rs.reverse with
    | some x => rfl
    | none =>
      by_cases hr : isSucceededPair r
      · simp [List.find?_cons, hr, latencyReportStep, Option.or]
      · simp [List.find?_cons, hr, latencyReportStep, Option.or]

/-! Claim theorems. -/

/-- C10: the crypto primitive round-trips — for every string payload, every
seed, and the key pair produced by `ml_kem5.keygen`, decapsulating the
ciphertext produced by encapsulation returns the original payload. -/
theorem c10_mlkem_roundtrip (seed : List Nat) (s : List Char) :
    ml_kem5.decap (ml_kem5.keygen seed).secretKey
      (ml_kem5.encap (ml_kem5.keygen seed).publicKey s).ciphertext = some s := by
  show utf8Decode (utf8Encode s) = some s
  exact utf8Decode_encode s

/-- C1 counterexample: under the snapshot of `bigRamInput` the reported ram
fraction is 0.9, above the 0.8 threshold, yet because the device reports
more than 6000 MB of total ram, `checkResources` substitutes 0.3 for it:
the admission check returns no denial and the start request proceeds all
the way into `startWebRTC` and emits the offer, contradicting the claim
that any such snapshot is rejected before signaling. -/
theorem c1_big_ram_admitted :
    (8 : ℚ)/10 < ramFraction bigRamInput.diag ∧
    checkResources bigRamInput.env bigRamInput.diag = false ∧
    handleStartSession bigRamInput = .proceeded .started ∧
    StartAction.webrtcStart ∈ startActions bigRamInput := by
  have hcheck : checkResources bigRamInput.env bigRamInput.diag = false := by
    norm_num [checkResources, bigRamInput, ramFraction, cpuUsage]
  refine ⟨by norm_num [bigRamInput, ramFraction], hcheck, ?_, ?_⟩
  · unfold handleStartSession
    rw [if_neg (by decide), if_neg (by decide), if_neg (by decide),
      if_neg (by rw [hcheck]; decide)]
    unfold startWebRTC
    rw [if_neg (by decide), if_neg (by decide), if_neg (by rw [hcheck]; decide),
      if_neg (by decide), if_neg (by decide)]
  · unfold startActions
    rw [if_neg (by decide), if_neg (by decide), if_neg (by decide),
      if_neg (by rw [hcheck]; decide)]
    decide

/-- C1 (amended): on devices whose total ram is at most 6000 MB (so the
reported ram fraction is not replaced by the 0.3 placeholder), every start
press under a snapshot with cpu load above 0.7, ram pressure above 0.8 or
an active thermal warning is denied by the start-time admission gate
(`checkResources` or `thermalWarning`) and ends rejected with the
resource-limit error, without `startWebRTC` ever being entered. -/
theorem c1_resource_gate (i : StartInputs)
    (hram : i.env.totalRamMb ≤ 6000)
    (hweb : i.isWebPlatform = false)
    (hconn : i.isConnected = false)
    (hid : jsTrim i.deviceId ≠ "")
    (hover : (7 : ℚ)/10 < cpuUsage i.diag ∨ (8 : ℚ)/10 < ramFraction i.diag ∨
      i.thermalWarning = true) :
    (checkResources i.env i.diag || i.thermalWarning) = true ∧
    handleStartSession i = .rejectedResourceLimit ∧
    StartAction.webrtcStart ∉ startActions i := by
  have hgate : (checkResources i.env i.diag || i.thermalWarning) = true := by
    rcases hover with h | h | h
    · have : checkResources i.env i.diag = true := by
        simp only [checkResources, Bool.or_eq_true, Bool.and_eq_true, decide_eq_true_eq]
        exact Or.inl (Or.inr h)
      rw [this, Bool.true_or]
    · have hnot : ¬ (6000 < i.env.totalRamMb) := not_lt.mpr hram
      have : checkResources i.env i.diag = true := by
        simp only [checkResources, Bool.or_eq_true, Bool.and_eq_true, decide_eq_true_eq]
        rw [if_neg hnot]
        exact Or.inl (Or.inl h)
      rw [this, Bool.true_or]
    · rw [h, Bool.or_true]
  refine ⟨hgate, ?_, ?_⟩
  · unfold handleStartSession
    rw [if_neg (by rw [hweb]; decide), if_neg (by rw [hconn]; decide), if_neg hid,
      if_pos hgate]
  · unfold startActions
    rw [if_neg (by rw [hweb]; decide), if_neg (by rw [hconn]; decide), if_neg hid,
      if_pos hgate]
    decide

/-- C1 witness: the amended theorem applied to `smallRamInput`, a 4000 MB
device with ram fraction 0.9. -/
theorem c1_resource_gate_witness :
    (checkResources smallRamInput.env smallRamInput.diag || smallRamInput.thermalWarning) = true ∧
    handleStartSession smallRamInput = .rejectedResourceLimit ∧
    StartAction.webrtcStart ∉ startActions smallRamInput :=
  c1_resource_gate smallRamInput (by norm_num [smallRamInput]) rfl rfl (by decide)
    (Or.inr (Or.inl (by norm_num [smallRamInput, ramFraction])))

/-- C2: with the crypto context not ready, `startWebRTC` does fail fast
(no peer connection is created and no offer is emitted), but the caller
`handleStartSession` nevertheless marks the session connected and records
a session-history entry, so the session IS marked started/connected,
against both the claim and the spec. -/
theorem c2_encryption_not_ready_marks_connected :
    handleStartSession earlyStartInput = .proceeded .encryptionNotReady ∧
    pcCreated .encryptionNotReady = false ∧
    offerEmitted .encryptionNotReady = false ∧
    isConnectedAfterStart earlyStartInput = true ∧
    sessionLoggedAfterStart earlyStartInput = true := by
  have hcheck : checkResources earlyStartInput.env earlyStartInput.diag = false := by
    norm_num [checkResources, earlyStartInput, ramFraction, cpuUsage]
  have hmain : handleStartSession earlyStartInput = .proceeded .encryptionNotReady := by
    unfold handleStartSession
    rw [if_neg (by decide), if_neg (by decide), if_neg (by decide),
      if_neg (by rw [hcheck]; decide)]
    unfold startWebRTC
    rw [if_neg (by decide), if_pos (by decide)]
  refine ⟨hmain, rfl, rfl, ?_, ?_⟩
  · unfold isConnectedAfterStart
    rw [hmain]
  · unfold sessionLoggedAfterStart
    rw [hmain]

/-- C3: a start press with an empty or whitespace-only device id (on
native, with no session active) ends in the missing-device-id rejection,
and the crypto-context initializer is never invoked as part of that press:
the action trace of the press is empty. -/
theorem c3_missing_device_id (i : StartInputs)
    (hweb : i.isWebPlatform = false)
    (hconn : i.isConnected = false)
    (hid : jsTrim i.deviceId = "") :
    handleStartSession i = .missingDeviceId ∧
    (startActions i).count StartAction.encryptionInitCall = 0 ∧
    startActions i = [] := by
  have h2 : startActions i = [] := by
    unfold startActions
    rw [if_neg (by rw [hweb]; decide), if_neg (by rw [hconn]; decide), if_pos hid]
  refine ⟨?_, by rw [h2]; rfl, h2⟩
  unfold handleStartSession
  rw [if_neg (by rw [hweb]; decide), if_neg (by rw [hconn]; decide), if_pos hid]

/-- C3 witness: the theorem applied to `blankIdInput`, whose device id is
three spaces. -/
theorem c3_missing_device_id_witness :
    handleStartSession blankIdInput = .missingDeviceId ∧
    (startActions blankIdInput).count StartAction.encryptionInitCall = 0 ∧
    startActions blankIdInput = [] :=
  c3_missing_device_id blankIdInput rfl rfl (by decide)

/-- C4 counterexample: two ice_failed deliveries for the same room with no
relay response in between issue two relay requests, not at most one; and
one failed connection transition can itself produce two ice_failed
emissions, because both connection-state callbacks fire and emit
independently. -/
theorem c4_double_relay_request :
    (relayRun [RelayEvent.iceFailed "dev-42", RelayEvent.iceFailed "dev-42"]).posts = 2 ∧
    ¬ (relayRun [RelayEvent.iceFailed "dev-42", RelayEvent.iceFailed "dev-42"]).posts ≤ 1 ∧
    onConnStateChangeEmit "failed" 5000 0 + onIceConnStateChangeEmit "failed" = 2 := by
  refine ⟨rfl, by decide, by decide⟩

/-- C4 (amended): the ice_failed handler issues exactly one relay request
per received ice_failed event, with no deduplication or in-flight guard:
over any event sequence the number of relay requests equals the number of
ice_failed deliveries, whatever responses arrive in between. -/
theorem c4_relay_request_per_event (es : List RelayEvent) :
    (relayRun es).posts = (es.filter isIceFailedEv).length := by
  unfold relayRun
  rw [relayRunFrom_posts]
  exact Nat.zero_add _

/-- C5 counterexample: a failed relay request during a connected session
does not terminate the session: the connection flag, the timers and the
peer connection are untouched and only the error banner changes, so the
session IS left active, against the claim that it ends in a failed
state. -/
theorem c5_relay_failure_leaves_session_active :
    (fallbackStep { session := connectedSession, posts := 1, directives := 0 }
        RelayEvent.responseErr).session.isConnected = true ∧
    (fallbackStep { session := connectedSession, posts := 1, directives := 0 }
        RelayEvent.responseErr).session.timerOn = true ∧
    (fallbackStep { session := connectedSession, posts := 1, directives := 0 }
        RelayEvent.responseErr).session.pc =
      some { closed := false, remoteDescSet := true, candidates := ["cand0"] } ∧
    (fallbackStep { session := connectedSession, posts := 1, directives := 0 }
        RelayEvent.responseErr).session.errorMessage = "Fallback unavailable; retry P2P" :=
  ⟨rfl, rfl, rfl, rfl⟩

/-- C5 (amended): a successful relay response emits the use_rustdesk
directive (the degraded relay mode) and leaves the session state
untouched; a failed relay response only sets the error banner and leaves
the connection flag, peer connection, timers and request counter as they
were — fallback failure is not fatal for the session. -/
theorem c5_fallback_outcomes (st : FallbackState) (id pass : String) :
    (fallbackStep st RelayEvent.responseErr).session.isConnected = st.session.isConnected ∧
    (fallbackStep st RelayEvent.responseErr).session.pc = st.session.pc ∧
    (fallbackStep st RelayEvent.responseErr).session.timerOn = st.session.timerOn ∧
    (fallbackStep st RelayEvent.responseErr).session.latencyTimerOn =
      st.session.latencyTimerOn ∧
    (fallbackStep st RelayEvent.responseErr).session.errorMessage =
      "Fallback unavailable; retry P2P" ∧
    (fallbackStep st RelayEvent.responseErr).posts = st.posts ∧
    (fallbackStep st (RelayEvent.responseOk id pass)).directives = st.directives + 1 ∧
    (fallbackStep st (RelayEvent.responseOk id pass)).session = st.session :=
  ⟨rfl, rfl, rfl, rfl, rfl, rfl, rfl, rfl⟩

/-- C6 code bug: on a fresh mount `socketRef.current` is null, so the
guard `!socketRef.current` in setupSignaling makes the function return at
once and the socket is never created: the signaling endpoint is never
contacted. The second conjunct shows the configuration (reconnection
capped at 5 attempts, 1000 ms delay) that would be installed if a socket
already existed, and the third that the URL guard is not the cause. -/
theorem c6_signaling_never_connects :
    setupSignaling false none = none ∧
    (∀ c : SocketConfig, setupSignaling false (some c) =
      some { reconnection := true, reconnectionAttempts := 5, reconnectionDelay := 1000 }) ∧
    SIGNALING_URL ≠ "" := by
  refine ⟨rfl, fun c => rfl, by decide⟩

/-- C7: an ICE candidate processed while the peer connection has no remote
description yet is dropped as the candidate-before-description error: the
candidate list of the peer connection is left unchanged, nothing is
queued, and the session continues (connection flag and timers keep their
values; only the error banner is set). -/
theorem c7_candidate_before_description (s : SessionState) (p : PeerConn) (did c : String)
    (hpc : s.pc = some p) (hclosed : p.closed = false) (hdesc : p.remoteDescSet = false) :
    addIceCandidate p c = Except.error RTCError.candidateBeforeDescription ∧
    onIceCandidateEvent did s did c true = { s with errorMessage := "Failed to add ICE candidate" } ∧
    (onIceCandidateEvent did s did c true).pc = s.pc ∧
    (onIceCandidateEvent did s did c true).isConnected = s.isConnected ∧
    (onIceCandidateEvent did s did c true).timerOn = s.timerOn := by
  have hadd : addIceCandidate p c = Except.error RTCError.candidateBeforeDescription := by
    unfold addIceCandidate
    rw [hclosed, hdesc]
    rfl
  have hev : onIceCandidateEvent did s did c true =
      { s with errorMessage := "Failed to add ICE candidate" } := by
    simp only [onIceCandidateEvent, hpc]
    rw [if_neg (by simp), hadd]
  exact ⟨hadd, hev, by rw [hev], by rw [hev], by rw [hev]⟩

/-- C7 witness: the theorem applied to `negotiatingSession`, whose peer
connection has an empty candidate list and no remote description. -/
theorem c7_candidate_before_description_witness :
    addIceCandidate { closed := false, remoteDescSet := false, candidates := [] } "candA" =
      Except.error RTCError.candidateBeforeDescription ∧
    onIceCandidateEvent "dev-42" negotiatingSession "dev-42" "candA" true =
      { negotiatingSession with errorMessage := "Failed to add ICE candidate" } ∧
    (onIceCandidateEvent "dev-42" negotiatingSession "dev-42" "candA" true).pc =
      negotiatingSession.pc ∧
    (onIceCandidateEvent "dev-42" negotiatingSession "dev-42" "candA" true).isConnected =
      negotiatingSession.isConnected ∧
    (onIceCandidateEvent "dev-42" negotiatingSession "dev-42" "candA" true).timerOn =
      negotiatingSession.timerOn :=
  c7_candidate_before_description negotiatingSession
    { closed := false, remoteDescSet := false, candidates := [] } "dev-42" "candA" rfl rfl rfl

theorem onIceCandidateEvent_closed (did dev c : String) (rtcA : Bool) (e : SessionState)
    (h : ∀ q, e.pc = some q → q.closed = true) :
    sessionCore (onIceCandidateEvent did e dev c rtcA) = sessionCore e := by
  cases hpc : e.pc with
  | none => simp only [onIceCandidateEvent, hpc]
  | some p =>
    have hclosed : p.closed = true := h p hpc
    simp only [onIceCandidateEvent, hpc]
    by_cases hg : (decide (dev ≠ did) || !rtcA) = true
    · rw [if_pos hg]
    · rw [if_neg hg]
      have hx : addIceCandidate p c = Except.error RTCError.invalidState := by
        unfold addIceCandidate
        rw [hclosed]
        rfl
      rw [hx]
      simp [sessionCore, hpc]

/-- C8: ending a session from any state yields the terminal ended state
(connection flag false, duration and latency reset, both timers stopped,
stream released, peer connection and data channel closed), a repeated end
is idempotent, and a late candidate event delivered after the end leaves
every session field except the error banner unchanged. -/
theorem c8_end_session_terminal (s : SessionState) (did dev c : String) (rtcA : Bool) :
    (handleEndSession s).isConnected = false ∧
    (handleEndSession s).duration = 0 ∧
    (handleEndSession s).latency = 0 ∧
    (handleEndSession s).timerOn = false ∧
    (handleEndSession s).latencyTimerOn = false ∧
    (handleEndSession s).localStream = none ∧
    (handleEndSession s).pc = s.pc.map (fun p => { p with closed := true }) ∧
    handleEndSession (handleEndSession s) = handleEndSession s ∧
    sessionCore (onIceCandidateEvent did (handleEndSession s) dev c rtcA) =
      sessionCore (handleEndSession s) := by
  refine ⟨rfl, rfl, rfl, rfl, rfl, rfl, rfl, ?_, ?_⟩
  · unfold handleEndSession
    cases s.pc <;> cases s.dataChannel <;> rfl
  · apply onIceCandidateEvent_closed
    intro q hq
    cases hps : s.pc with
    | none => simp [handleEndSession, hps] at hq
    | some p =>
      simp only [handleEndSession, hps, Option.map_some'] at hq
      injection hq with h
      rw [← h]

/-- C9 counterexample: a stats list with two succeeded candidate pairs
(round-trip times 0.085 s then 0.2 s) makes the sampler store 200 ms: the
`forEach` applies every succeeded pair in order, so the LAST pair wins,
while the claim prescribes the first (85 ms). -/
theorem c9_last_pair_wins :
    latencySampleTick 0 (some twoPairStats) = 200 ∧
    specFirstPairLatency 0 twoPairStats = 85 ∧
    (200 : ℤ) ≠ 85 := by
  refine ⟨?_, ?_, by decide⟩
  · show latencyReportStep (latencyReportStep 0
      { kind := "candidate-pair", state := "succeeded", currentRoundTripTime := some (17/200) })
      { kind := "candidate-pair", state := "succeeded", currentRoundTripTime := some (1/5) } = 200
    unfold latencyReportStep
    rw [if_pos (by decide)]
    show jsRound ((1 : ℚ)/5 * 1000) = 200
    exact jsRound_eq _ 200 (by norm_num) (by norm_num)
  · unfold specFirstPairLatency
    rw [show List.find? isSucceededPair twoPairStats = some
      { kind := "candidate-pair", state := "succeeded", currentRoundTripTime := some (17/200) } by
        rw [twoPairStats, List.find?_cons]
        rw [show isSucceededPair
          { kind := "candidate-pair", state := "succeeded", currentRoundTripTime := some (17/200) }
          = true by decide]]
    show jsRound ((17 : ℚ)/200 * 1000) = 85
    exact jsRound_eq _ 85 (by norm_num) (by norm_num)

/-- C9 (amended): one sampler tick applies every succeeded candidate pair
of the stats in order, so the stored latency is the whole-millisecond
round-trip time of the LAST succeeded pair, the previous value when there
is none, and the previous value when the stats read fails; a single
succeeded pair reporting 0.085 s stores 85. -/
theorem c9_latency_sampling (reports : List StatsReport) (lat : ℤ) :
    latencySampleTick lat (some reports) =
      (match lastSucceededPair reports with
        | some r => jsRound (r.currentRoundTripTime.getD 0 * 1000)
        | none => lat) ∧
    latencySampleTick lat none = lat ∧
    latencySampleTick lat (some singlePairStats) = 85 := by
  refine ⟨foldl_latencyReportStep reports lat, rfl, ?_⟩
  show latencyReportStep lat
    { kind := "candidate-pair", state := "succeeded", currentRoundTripTime := some (17/200) } = 85
  unfold latencyReportStep
  rw [if_pos (by decide)]
  show jsRound ((17 : ℚ)/200 * 1000) = 85
  exact jsRound_eq _ 85 (by norm_num) (by norm_num)
